import Mathlib

/-!
Verification development for the pandasticsearch query compiler
(`pandasticsearch/dataframe.py`).

The DataFrame builder accumulates filter / aggregation / sort / projection /
limit clauses and compiles them into one Elasticsearch query document
(`DataFrame._build_query`).  We embed the clause snapshot, the constructor,
every clause mutator, the compiler and the execution dispatch as executable
Lean functions, mirroring Python dict semantics (insertion order, in-place
overwrite on an existing key) with association lists, and Python truthiness
tests (`if self._limit:` etc.) explicitly.
-/

set_option maxHeartbeats 1000000
set_option linter.unusedVariables false

/-! ## Definitions -/

/-- JSON values, as produced by `json.dumps`-compatible Python structures.
Objects are insertion-ordered association lists, matching Python dicts. -/
inductive Json where
  | null
  | bool (b : Bool)
  | int (n : Int)
  | str (s : String)
  | arr (xs : List Json)
  | obj (fields : List (String × Json))
deriving Repr

/-- Python truthiness of a JSON value (`if x:`): empty dicts and lists,
zero, the empty string, `False` and `None` are falsy. -/
def Json.truthy : Json → Bool
  | .null => false
  | .bool b => b
  | .int n => n != 0
  | .str s => !s.isEmpty
  | .arr xs => !xs.isEmpty
  | .obj fields => !fields.isEmpty

/-- Python dict assignment `d[k] = v`: replace the value in place if the key
is present (association lists built here never repeat a key), else append. -/
def dictInsert : List (String × Json) → String → Json → List (String × Json)
  | [], k, v => [(k, v)]
  | (k', v') :: rest, k, v =>
      if k' = k then (k, v) :: rest else (k', v') :: dictInsert rest k v

/-- Python `d.update(other)`: assign every key of `other` in order. -/
def dictUpdate (d other : List (String × Json)) : List (String × Json) :=
  other.foldl (fun acc kv => dictInsert acc kv.1 kv.2) d

/-- Python `d[k]` lookup returning `none` when the key is absent. -/
def dictLookup : List (String × Json) → String → Option Json
  | [], _ => none
  | (k', v) :: rest, k => if k' = k then some v else dictLookup rest k

/-- Key list of a dict, in insertion order. -/
def dictKeys (d : List (String × Json)) : List String :=
  d.map Prod.fst

/-- Exceptions raised by the embedded code.  Message payloads are elided;
the constructor records the Python exception class.  `valueError` is never
raised by this code; it is in the taxonomy because the spec names it. -/
inductive Err where
  | assertionError
  | valueError
  | typeError
  | attributeError
  | schemaException
  | recursionError
deriving DecidableEq, Repr

/-- Modelled from the spec: `types.py` is not under `src/`.  A `Column`
identifies a schema field by name (spec section 3). -/
structure Column where
  name : String
deriving DecidableEq, Repr

/-- Modelled from the spec: `operators.py` is not under `src/`.
`BooleanFilter` is a closed union of predicate variants (spec section 3),
each rendering a wire fragment via `build` (spec section 4.1). -/
inductive BooleanFilter where
  | eq (field : String) (v : Json)
  | ne (field : String) (v : Json)
  | gt (field : String) (v : Json)
  | ge (field : String) (v : Json)
  | lt (field : String) (v : Json)
  | le (field : String) (v : Json)
  | isin (field : String) (vs : List Json)
  | isnull (field : String)
  | isnotnull (field : String)
  | like (field : String) (pat : String)
  | and2 (a b : BooleanFilter)
  | or2 (a b : BooleanFilter)
  | not1 (a : BooleanFilter)
deriving Repr

/-- Modelled from the spec: leaf comparisons use the engine's native
comparison-query shapes (`term` for equality, `range` for ordering);
composites nest children under a `bool` combinator with `must` / `should`
(plus `minimum_should_match` 1) / `must_not` (spec section 4.1). -/
def BooleanFilter.build : BooleanFilter → Json
  | .eq f v => .obj [("term", .obj [(f, v)])]
  | .ne f v => .obj [("bool", .obj [("must_not", .obj [("term", .obj [(f, v)])])])]
  | .gt f v => .obj [("range", .obj [(f, .obj [("gt", v)])])]
  | .ge f v => .obj [("range", .obj [(f, .obj [("gte", v)])])]
  | .lt f v => .obj [("range", .obj [(f, .obj [("lt", v)])])]
  | .le f v => .obj [("range", .obj [(f, .obj [("lte", v)])])]
  | .isin f vs => .obj [("terms", .obj [(f, .arr vs)])]
  | .isnull f => .obj [("missing", .obj [("field", .str f)])]
  | .isnotnull f => .obj [("exists", .obj [("field", .str f)])]
  | .like f p => .obj [("wildcard", .obj [(f, .str p)])]
  | .and2 a b => .obj [("bool", .obj [("must", .arr [a.build, b.build])])]
  | .or2 a b =>
      .obj [("bool", .obj [("should", .arr [a.build, b.build]),
                           ("minimum_should_match", .int 1)])]
  | .not1 a => .obj [("bool", .obj [("must_not", a.build)])]

/-- Modelled from the spec: a `Sorter` is a column plus a direction and
builds a single-key `(field -> (order -> asc|desc))` fragment
(spec sections 3 and 4.1). -/
structure Sorter where
  field : String
  asc : Bool
deriving DecidableEq, Repr

/-- Modelled from the spec: sorter fragment shape. -/
def Sorter.build (s : Sorter) : Json :=
  .obj [(s.field, .obj [("order", .str (if s.asc then "asc" else "desc"))])]

/-- Modelled from the spec: `operators.py` is not under `src/`.  A metric
aggregator holds a target field and an aggregation kind (spec section 3). -/
structure Aggregator where
  field : String
  kind : String
deriving DecidableEq, Repr

/-- Modelled from the spec: `build` returns a mapping with exactly one key
derived from `kind(field)` (spec section 4.1). -/
def Aggregator.build (a : Aggregator) : List (String × Json) :=
  [(a.kind ++ "(" ++ a.field ++ ")",
    .obj [(a.kind, .obj [("field", .str a.field)])])]

/-- Mapping shape consumed by the constructor:
`{index: {"mappings": {type: {"properties": {field: metadata}}}}}`.
The fixed `"mappings"` / `"properties"` wrapper keys are elided; each level
is the insertion-ordered item list the Python loops iterate. -/
abbrev Mapping := List (String × List (String × List (String × Json)))

/-- Column collection loop of `DataFrame.__init__` (dataframe.py lines
26-31): append every field name of every type of every index, in
iteration order. -/
def colsOfMapping (m : Mapping) : List String :=
  m.foldl (fun cols im =>
    im.2.foldl (fun cols2 tm =>
      tm.2.foldl (fun cols3 fm => cols3 ++ [fm.1]) cols2) cols) []

/-- The `self._index = index` assignment runs once per index key, so after
the loop `_index` holds the last key, and is unbound when the mapping is
empty. -/
def lastIndex (m : Mapping) : Option String :=
  m.foldl (fun _ im => some im.1) none

/-- Clause snapshot held by a `DataFrame` (dataframe.py lines 25-47).
Field names follow the Python attributes; the client handle and the
diagnostic `_last_query` cache are elided (transport is external and the
cache is write-only here). -/
structure DataFrame where
  _index : String
  _columns : List String
  _mapping : Mapping
  _filter : Option Json := none
  _aggregation : Option (List (String × Json)) := none
  _sort : Option (List Json) := none
  _projection : Option Json := none
  _limit : Option Int := none
deriving Repr

/-- Keyword arguments accepted by `DataFrame.__init__` via `kwargs.get`. -/
structure Kwargs where
  filter : Option Json := none
  aggregation : Option (List (String × Json)) := none
  sort : Option (List Json) := none
  projection : Option Json := none
  limit : Option Int := none
deriving Repr

/-- Constructor `DataFrame.__init__` (dataframe.py lines 25-47).  With an
empty mapping the loop never binds `self._index`; the subsequent
`if self._index is None:` lookup then falls into `__getattr__`, whose
`self.columns` check reads the still-unbound `self._columns`, re-entering
`__getattr__` without bound: Python raises RecursionError, and the
`raise Exception('No index ...')` on line 34 is unreachable for
string-keyed mappings.  Zero collected fields raise the
`'0 columns found'` Exception (line 37). -/
def DataFrame.init (m : Mapping) (kw : Kwargs) : Except Err DataFrame :=
  let cols := colsOfMapping m
  match lastIndex m with
  | none => .error .recursionError
  | some idx =>
      if cols.isEmpty then .error .schemaException
      else .ok { _index := idx, _columns := cols, _mapping := m,
                 _filter := kw.filter, _aggregation := kw.aggregation,
                 _sort := kw.sort, _projection := kw.projection,
                 _limit := kw.limit }

/-- `DataFrame.filter` (dataframe.py lines 94-111): construct a new frame
with the filter clause replaced by `condition.build()` and every other
clause copied. -/
def DataFrame.filter (df : DataFrame) (condition : BooleanFilter) :
    Except Err DataFrame :=
  DataFrame.init df._mapping
    { filter := some condition.build, aggregation := df._aggregation,
      projection := df._projection, sort := df._sort, limit := df._limit }

/-- `DataFrame.select` (dataframe.py lines 115-130): set the projection to
an includes/excludes dict. -/
def DataFrame.select (df : DataFrame) (cols : List String) :
    Except Err DataFrame :=
  DataFrame.init df._mapping
    { filter := df._filter, aggregation := df._aggregation,
      projection := some (.obj [("includes", .arr (cols.map Json.str)),
                                ("excludes", .arr [])]),
      sort := df._sort, limit := df._limit }

/-- Argument passed to `limit`: a Python int, or a value of any other type
(which fails the `isinstance(num, int)` assert). -/
inductive LimitArg where
  | int (n : Int)
  | nonint
deriving DecidableEq, Repr

/-- `DataFrame.limit` (dataframe.py lines 132-143): `assert isinstance(num,
int)` then `assert num >= 1`, both raising AssertionError on failure, then
construct a new frame with the limit replaced. -/
def DataFrame.limit (df : DataFrame) (num : LimitArg) : Except Err DataFrame :=
  match num with
  | .nonint => .error .assertionError
  | .int n =>
      if n ≥ 1 then
        DataFrame.init df._mapping
          { filter := df._filter, aggregation := df._aggregation,
            projection := df._projection, sort := df._sort, limit := some n }
      else .error .assertionError

/-- Aggregation merge loop of `DataFrame.agg` (dataframe.py lines 153-156):
start from `{}` and `update` with each aggregator's fragment. -/
def mergeAggs (aggs : List Aggregator) : List (String × Json) :=
  aggs.foldl (fun acc a => dictUpdate acc a.build) []

/-- `DataFrame.agg` (dataframe.py lines 145-162): replace the aggregation
clause by the merged fragment map (always a dict, possibly empty). -/
def DataFrame.agg (df : DataFrame) (aggs : List Aggregator) :
    Except Err DataFrame :=
  DataFrame.init df._mapping
    { filter := df._filter, aggregation := some (mergeAggs aggs),
      projection := df._projection, sort := df._sort, limit := df._limit }

/-- `DataFrame.sort` (dataframe.py lines 164-184): replace the sort clause
by the list of built sorter fragments, in call order. -/
def DataFrame.sort (df : DataFrame) (cols : List Sorter) :
    Except Err DataFrame :=
  DataFrame.init df._mapping
    { filter := df._filter, aggregation := df._aggregation,
      sort := some (cols.map Sorter.build),
      projection := df._projection, limit := df._limit }

/-- `DataFrame.__getattr__` (dataframe.py lines 74-81): a name outside the
column set raises AttributeError, otherwise a `Column` bound to the name is
returned. -/
def DataFrame.getattr (df : DataFrame) (name : String) : Except Err Column :=
  if df._columns.contains name then .ok ⟨name⟩ else .error .attributeError

/-- Argument passed to `DataFrame.__getitem__`: a string, a
`BooleanFilter`, or a value of any other type. -/
inductive GetItemArg where
  | str (s : String)
  | filt (f : BooleanFilter)
  | other
deriving Repr

/-- Value returned by `DataFrame.__getitem__`: a `Column`, or the receiver
itself (`return self`). -/
inductive GetItemRet where
  | col (c : Column)
  | self
deriving DecidableEq, Repr

/-- `DataFrame.__getitem__` (dataframe.py lines 83-92), in receiver-state
passing style: the first component of the result is the receiver's state
after the call (the BooleanFilter branch assigns `self._filter`
in place and returns `self`; both other branches leave the receiver as it
was). -/
def DataFrame.getitem (df : DataFrame) (item : GetItemArg) :
    Except Err (DataFrame × GetItemRet) :=
  match item with
  | .str s =>
      if df._columns.contains s then .ok (df, .col ⟨s⟩)
      else .error .typeError
  | .filt f => .ok ({ df with _filter := some f.build }, .self)
  | .other => .error .typeError

/-- Interpreter variant chosen by `DataFrame._execute`. -/
inductive Interp where
  | agg
  | select
deriving DecidableEq, Repr

/-- Dispatch of `DataFrame._execute` (dataframe.py lines 187-193): the
response dict is received from the transport, and the interpreter is chosen
by `self._aggregation is not None` alone; `resDict` is passed on to the
chosen interpreter, never consulted for the choice. -/
def DataFrame.interpFor (df : DataFrame) (resDict : Json) : Interp :=
  if df._aggregation.isSome then Interp.agg else Interp.select

/-- Truthiness of the `_limit` attribute (`if self._limit:`). -/
def optIntTruthy : Option Int → Bool
  | some n => n != 0
  | none => false

/-- Truthiness of the `_aggregation` attribute (`if self._aggregation:`). -/
def optDictTruthy : Option (List (String × Json)) → Bool
  | some d => !d.isEmpty
  | none => false

/-- Truthiness of the `_sort` attribute (`if self._sort:`). -/
def optListTruthy : Option (List Json) → Bool
  | some l => !l.isEmpty
  | none => false

/-- Truthiness of the `_filter` / `_projection` attributes. -/
def optJsonTruthy : Option Json → Bool
  | some j => j.truthy
  | none => false

/-- `DataFrame._build_query` (dataframe.py lines 327-348): build the query
dict by successive Python dict assignments, with each guard being the
attribute's truthiness.  The aggregation branch overwrites the already
present `size` key in place with 0. -/
def DataFrame.buildQuery (df : DataFrame) : List (String × Json) :=
  let q := dictInsert [] "size"
    (Json.int (if optIntTruthy df._limit then df._limit.getD 0 else 20))
  let q := if optDictTruthy df._aggregation then
      dictInsert (dictInsert q "aggregations" (Json.obj (df._aggregation.getD [])))
        "size" (Json.int 0)
    else q
  let q := if optJsonTruthy df._filter then
      dictInsert q "query"
        (Json.obj [("filtered", Json.obj [("filter", df._filter.getD Json.null)])])
    else q
  let q := if optJsonTruthy df._projection then
      dictInsert q "_source" (df._projection.getD Json.null)
    else q
  let q := if optListTruthy df._sort then
      dictInsert q "sort" (Json.arr (df._sort.getD []))
    else q
  q

/-- Mapping fixture with one index, one type and one field `age`. -/
def mapFix : Mapping := [("people", [("person", [("age", Json.null)])])]

/-- Base frame: the result of constructing over `mapFix` with no clauses. -/
def dfFix : DataFrame :=
  { _index := "people", _columns := ["age"], _mapping := mapFix }

/-- An attribute as the filter / projection clause can be left by the API:
absent, or a truthy (non-empty) fragment. -/
def optOkJson : Option Json → Bool
  | none => true
  | some j => j.truthy

/-- A limit attribute as `limit` can leave it: absent or a positive int. -/
def optOkLimit : Option Int → Bool
  | none => true
  | some n => decide (1 ≤ n)

/-- Snapshot used to refute C1 as stated: reachable via
`dfFix.limit(5).agg(Avg('age')).sort()`. -/
def dfC1 : DataFrame :=
  { _index := "people", _columns := ["age"], _mapping := mapFix,
    _aggregation := some [("avg(age)",
      Json.obj [("avg", Json.obj [("field", Json.str "age")])])],
    _sort := some [], _limit := some 5 }

/-- Snapshot for the C1 witness: filter, projection, sort and limit set,
no aggregation. -/
def dfC1w : DataFrame :=
  { _index := "people", _columns := ["age"], _mapping := mapFix,
    _filter := some (BooleanFilter.lt "age" (Json.int 13)).build,
    _sort := some [Sorter.build ⟨"age", true⟩],
    _projection := some (Json.obj [("includes", Json.arr [Json.str "age"]),
                                   ("excludes", Json.arr [])]),
    _limit := some 2 }

/-- Frame reached by `dfFix.filter (age < 13)`. -/
def dfC2a : DataFrame :=
  { _index := "people", _columns := ["age"], _mapping := mapFix,
    _filter := some (BooleanFilter.lt "age" (Json.int 13)).build }

/-- Frame reached by filtering `dfFix` (or `dfC2a`) with `age == 5`. -/
def dfC2b : DataFrame :=
  { _index := "people", _columns := ["age"], _mapping := mapFix,
    _filter := some (BooleanFilter.eq "age" (Json.int 5)).build }

/-- Frame reached by `dfFix.limit(7)`. -/
def dfC3base : DataFrame :=
  { _index := "people", _columns := ["age"], _mapping := mapFix,
    _limit := some 7 }

/-- Frame reached by `dfFix.limit(7).agg()` with zero aggregators. -/
def dfC3 : DataFrame :=
  { _index := "people", _columns := ["age"], _mapping := mapFix,
    _aggregation := some [], _limit := some 7 }

/-- Frame reached by `dfC3base.agg(Avg('age'))`. -/
def dfC3w : DataFrame :=
  { _index := "people", _columns := ["age"], _mapping := mapFix,
    _aggregation := some (mergeAggs [⟨"age", "avg"⟩]), _limit := some 7 }

/-- Well-formed frame: its mapping would reconstruct (used to show `limit`
succeeds on positive arguments). -/
def DataFrame.wf (df : DataFrame) : Bool :=
  (lastIndex df._mapping).isSome && !(colsOfMapping df._mapping).isEmpty

/-- Frame reached by `dfFix.sort()` with zero sorters. -/
def dfC5 : DataFrame :=
  { _index := "people", _columns := ["age"], _mapping := mapFix,
    _sort := some [] }

/-- Frame reached by `dfFix.sort(A.asc, B.desc)`. -/
def dfC5w : DataFrame :=
  { _index := "people", _columns := ["age"], _mapping := mapFix,
    _sort := some [Sorter.build ⟨"A", true⟩, Sorter.build ⟨"B", false⟩] }

/-- Whether a `__getitem__` call returned `self`. -/
def GetItemRet.isSelf : GetItemRet → Bool
  | .self => true
  | .col _ => false

/-- One clause-mutator call, for stating receiver effects uniformly. -/
inductive MCall where
  | mfilter (p : BooleanFilter)
  | mselect (cols : List String)
  | mlimit (n : LimitArg)
  | magg (aggs : List Aggregator)
  | msort (ss : List Sorter)
  | mgetitemFilter (p : BooleanFilter)

/-- Receiver-state-passing view of one mutator call: the receiver's state
after the call, the returned frame, and whether the returned reference is
the receiver itself.  In the source, `filter` / `select` / `limit` / `agg`
/ `sort` never assign to `self` and return a fresh `DataFrame(...)`
(receiver unchanged, fresh return), while `__getitem__` with a
`BooleanFilter` assigns `self._filter` and does `return self`. -/
structure StepOut where
  receiverAfter : DataFrame
  ret : DataFrame
  retIsSelf : Bool

/-- Dispatch a mutator call, recording receiver effects. -/
def DataFrame.step (df : DataFrame) : MCall → Except Err StepOut
  | .mfilter p => (df.filter p).map fun r => ⟨df, r, false⟩
  | .mselect cs => (df.select cs).map fun r => ⟨df, r, false⟩
  | .mlimit n => (df.limit n).map fun r => ⟨df, r, false⟩
  | .magg aggs => (df.agg aggs).map fun r => ⟨df, r, false⟩
  | .msort ss => (df.sort ss).map fun r => ⟨df, r, false⟩
  | .mgetitemFilter p =>
      (df.getitem (.filt p)).map fun r => ⟨r.1, r.1, r.2.isSelf⟩

/-- Whether a call is the indexing-with-a-BooleanFilter form. -/
def MCall.isGetItem : MCall → Bool
  | .mgetitemFilter _ => true
  | _ => false

/-- Receiver state after `dfFix[age == 5]`. -/
def dfC7 : DataFrame :=
  { _index := "people", _columns := ["age"], _mapping := mapFix,
    _filter := some (BooleanFilter.eq "age" (Json.int 5)).build }

/-- Step record of `dfFix[age == 5]`. -/
def outC7 : StepOut := ⟨dfC7, dfC7, true⟩

/-- Mapping with an index and a type but zero fields. -/
def mapC9zero : Mapping := [("people", [("person", [])])]

/-- Mapping with one index, one type and two fields. -/
def mapC9two : Mapping :=
  [("people", [("person", [("age", Json.null), ("name", Json.null)])])]

/-- Frame reached by `dfFix.agg()` with zero aggregators. -/
def dfC10 : DataFrame :=
  { _index := "people", _columns := ["age"], _mapping := mapFix,
    _aggregation := some [] }

/-! ## Theorems -/

theorem dictInsert_ne_nil (d : List (String × Json)) (k : String) (v : Json) :
    dictInsert d k v ≠ [] := by
  cases d with
  | nil => simp [dictInsert]
  | cons hd tl =>
      simp only [dictInsert]
      split <;> simp

theorem dictLookup_append (d1 d2 : List (String × Json)) (k : String) :
    dictLookup (d1 ++ d2) k =
      match dictLookup d1 k with
      | some v => some v
      | none => dictLookup d2 k := by
  induction d1 with
  | nil => simp [dictLookup]
  | cons hd tl ih =>
      simp only [List.cons_append, dictLookup]
      split <;> simp [ih]

theorem dictLookup_eq_none_iff (d : List (String × Json)) (k : String) :
    dictLookup d k = none ↔ k ∉ dictKeys d := by
  induction d with
  | nil => simp [dictLookup, dictKeys]
  | cons hd tl ih =>
      simp only [dictLookup, dictKeys, List.map_cons, List.mem_cons]
      split
      · next heq => simp [heq.symm]
      · next hne =>
          rw [ih]
          simp [dictKeys]
          intro h
          exact fun hk => hne hk.symm

/-- Normal form of the compiled query: one conditional segment per clause,
with the size value folding in the aggregation override. -/
theorem buildQuery_eq (df : DataFrame) :
    df.buildQuery =
      [("size", Json.int (if optDictTruthy df._aggregation then 0
          else if optIntTruthy df._limit then df._limit.getD 0 else 20))]
      ++ (if optDictTruthy df._aggregation then
            [("aggregations", Json.obj (df._aggregation.getD []))] else [])
      ++ (if optJsonTruthy df._filter then
            [("query", Json.obj [("filtered",
                Json.obj [("filter", df._filter.getD Json.null)])])] else [])
      ++ (if optJsonTruthy df._projection then
            [("_source", df._projection.getD Json.null)] else [])
      ++ (if optListTruthy df._sort then
            [("sort", Json.arr (df._sort.getD []))] else []) := by
  unfold DataFrame.buildQuery
  cases hA : optDictTruthy df._aggregation <;>
  cases hF : optJsonTruthy df._filter <;>
  cases hP : optJsonTruthy df._projection <;>
  cases hS : optListTruthy df._sort <;>
  simp [dictInsert]

theorem dictLookup_buildQuery_size (df : DataFrame) :
    dictLookup df.buildQuery "size" =
      some (Json.int (if optDictTruthy df._aggregation then 0
        else if optIntTruthy df._limit then df._limit.getD 0 else 20)) := by
  rw [buildQuery_eq]
  simp [dictLookup]

theorem dictLookup_buildQuery_aggregations (df : DataFrame) :
    dictLookup df.buildQuery "aggregations" =
      (if optDictTruthy df._aggregation then
        some (Json.obj (df._aggregation.getD [])) else none) := by
  rw [buildQuery_eq]
  cases hA : optDictTruthy df._aggregation <;>
  cases hF : optJsonTruthy df._filter <;>
  cases hP : optJsonTruthy df._projection <;>
  cases hS : optListTruthy df._sort <;>
  simp [dictLookup]

theorem dictLookup_buildQuery_query (df : DataFrame) :
    dictLookup df.buildQuery "query" =
      (if optJsonTruthy df._filter then
        some (Json.obj [("filtered",
          Json.obj [("filter", df._filter.getD Json.null)])]) else none) := by
  rw [buildQuery_eq]
  cases hA : optDictTruthy df._aggregation <;>
  cases hF : optJsonTruthy df._filter <;>
  cases hP : optJsonTruthy df._projection <;>
  cases hS : optListTruthy df._sort <;>
  simp [dictLookup]

theorem dictLookup_buildQuery_source (df : DataFrame) :
    dictLookup df.buildQuery "_source" =
      (if optJsonTruthy df._projection then
        some (df._projection.getD Json.null) else none) := by
  rw [buildQuery_eq]
  cases hA : optDictTruthy df._aggregation <;>
  cases hF : optJsonTruthy df._filter <;>
  cases hP : optJsonTruthy df._projection <;>
  cases hS : optListTruthy df._sort <;>
  simp [dictLookup]

theorem dictLookup_buildQuery_sort (df : DataFrame) :
    dictLookup df.buildQuery "sort" =
      (if optListTruthy df._sort then
        some (Json.arr (df._sort.getD [])) else none) := by
  rw [buildQuery_eq]
  cases hA : optDictTruthy df._aggregation <;>
  cases hF : optJsonTruthy df._filter <;>
  cases hP : optJsonTruthy df._projection <;>
  cases hS : optListTruthy df._sort <;>
  simp [dictLookup]

theorem dictKeys_buildQuery_subset (df : DataFrame) :
    ∀ k ∈ dictKeys df.buildQuery,
      k ∈ ["size", "aggregations", "query", "_source", "sort"] := by
  rw [buildQuery_eq]
  cases hA : optDictTruthy df._aggregation <;>
  cases hF : optJsonTruthy df._filter <;>
  cases hP : optJsonTruthy df._projection <;>
  cases hS : optListTruthy df._sort <;>
  · intro k hk
    simp [dictKeys] at hk ⊢
    tauto

/-- Fields of a successfully constructed frame. -/
theorem init_ok_fields (m : Mapping) (kw : Kwargs) (df : DataFrame)
    (h : DataFrame.init m kw = .ok df) :
    df._mapping = m ∧ df._filter = kw.filter ∧
    df._aggregation = kw.aggregation ∧ df._sort = kw.sort ∧
    df._projection = kw.projection ∧ df._limit = kw.limit ∧
    df._columns = colsOfMapping m := by
  unfold DataFrame.init at h
  cases hli : lastIndex m with
  | none => simp [hli] at h
  | some idx =>
      simp only [hli] at h
      split at h
      · simp at h
      · cases h
        simp

/-- The compiled query depends only on the clause fields. -/
theorem buildQuery_congr (d1 d2 : DataFrame)
    (hf : d1._filter = d2._filter) (ha : d1._aggregation = d2._aggregation)
    (hs : d1._sort = d2._sort) (hp : d1._projection = d2._projection)
    (hl : d1._limit = d2._limit) :
    d1.buildQuery = d2.buildQuery := by
  unfold DataFrame.buildQuery
  rw [hf, ha, hs, hp, hl]

theorem mergeAggs_nil : mergeAggs [] = [] := rfl

theorem foldl_dictUpdate_ne_nil (l : List Aggregator) (d : List (String × Json))
    (h : l ≠ []) :
    l.foldl (fun acc a => dictUpdate acc a.build) d ≠ [] := by
  induction l generalizing d with
  | nil => simp at h
  | cons a rest ih =>
      simp only [List.foldl_cons]
      cases rest with
      | nil =>
          simp only [List.foldl_nil]
          simp [dictUpdate, Aggregator.build]
          exact dictInsert_ne_nil _ _ _
      | cons b rest2 => exact ih _ (by simp)

theorem mergeAggs_ne_nil (aggs : List Aggregator) (h : aggs ≠ []) :
    mergeAggs aggs ≠ [] :=
  foldl_dictUpdate_ne_nil aggs [] h

theorem optOkJson_truthy (o : Option Json) (h : optOkJson o = true) :
    optJsonTruthy o = o.isSome := by
  cases o <;> simp_all [optOkJson, optJsonTruthy]

theorem optOkLimit_size (o : Option Int) (h : optOkLimit o = true) :
    (if optIntTruthy o then o.getD 0 else 20 : Int) = o.getD 20 := by
  cases o with
  | none => simp [optIntTruthy]
  | some n =>
      simp only [optOkLimit, decide_eq_true_eq] at h
      have hne : n != 0 := by simp; omega
      simp [optIntTruthy, hne]

theorem mem_dictKeys_iff (d : List (String × Json)) (k : String) :
    k ∈ dictKeys d ↔ dictLookup d k ≠ none := by
  rw [Ne, dictLookup_eq_none_iff, not_not]

/-- C1, counterexample: on the reachable snapshot `dfC1` (limit 5, a
non-empty aggregation clause, sort clause present as the empty list) the
compiled document has size 0 rather than the limit, carries an
`aggregations` key outside the claim's emitted-key list, and emits no
`sort` key although a sort clause exists. -/
theorem buildQuery_agg_snapshot_breaks_plain_key_claim :
    (∃ df1 df2, dfFix.limit (.int 5) = .ok df1 ∧
        df1.agg [⟨"age", "avg"⟩] = .ok df2 ∧ df2.sort [] = .ok dfC1) ∧
    ¬ (dictLookup dfC1.buildQuery "size" = some (Json.int 5) ∧
       ("query" ∈ dictKeys dfC1.buildQuery ↔ dfC1._filter.isSome = true) ∧
       ("_source" ∈ dictKeys dfC1.buildQuery ↔ dfC1._projection.isSome = true) ∧
       ("sort" ∈ dictKeys dfC1.buildQuery ↔ dfC1._sort.isSome = true) ∧
       (∀ k ∈ dictKeys dfC1.buildQuery,
          k ∈ ["size", "query", "_source", "sort"])) := by
  refine ⟨⟨_, _, rfl, rfl, rfl⟩, ?_⟩
  intro h
  have h1 := h.1
  rw [show dictLookup dfC1.buildQuery "size" = some (Json.int 0) from rfl] at h1
  simp at h1

/-- C1, amended: for every snapshot whose filter / projection / limit
attributes are as the API leaves them, the compiled document's `size` is 0
under a non-empty aggregation clause and otherwise the limit if set, else
20; `aggregations` appears exactly when the aggregation clause is
non-empty, the filtered envelope exactly when a filter clause exists, the
projection exactly when a projection clause exists, `sort` exactly when the
sort clause is a non-empty list; no other keys are emitted. -/
theorem buildQuery_emits_keys_by_truthiness (df : DataFrame)
    (hf : optOkJson df._filter = true) (hp : optOkJson df._projection = true)
    (hl : optOkLimit df._limit = true) :
    dictLookup df.buildQuery "size" =
      some (Json.int (if optDictTruthy df._aggregation then 0
        else df._limit.getD 20)) ∧
    ("aggregations" ∈ dictKeys df.buildQuery ↔
        optDictTruthy df._aggregation = true) ∧
    ("query" ∈ dictKeys df.buildQuery ↔ df._filter.isSome = true) ∧
    ("_source" ∈ dictKeys df.buildQuery ↔ df._projection.isSome = true) ∧
    ("sort" ∈ dictKeys df.buildQuery ↔ optListTruthy df._sort = true) ∧
    (∀ k ∈ dictKeys df.buildQuery,
       k ∈ ["size", "aggregations", "query", "_source", "sort"]) := by
  have hfi := optOkJson_truthy _ hf
  have hpi := optOkJson_truthy _ hp
  refine ⟨?_, ?_, ?_, ?_, ?_, dictKeys_buildQuery_subset df⟩
  · rw [dictLookup_buildQuery_size, optOkLimit_size df._limit hl]
  · rw [mem_dictKeys_iff, dictLookup_buildQuery_aggregations]
    cases hA : optDictTruthy df._aggregation <;> simp
  · rw [mem_dictKeys_iff, dictLookup_buildQuery_query, hfi]
    cases hF : df._filter.isSome <;> simp
  · rw [mem_dictKeys_iff, dictLookup_buildQuery_source, hpi]
    cases hP : df._projection.isSome <;> simp
  · rw [mem_dictKeys_iff, dictLookup_buildQuery_sort]
    cases hS : optListTruthy df._sort <;> simp

/-- C1, witness: the amended characterization evaluated on `dfC1w`. -/
theorem buildQuery_emits_keys_by_truthiness_witness :
    optOkJson dfC1w._filter = true ∧ optOkJson dfC1w._projection = true ∧
    optOkLimit dfC1w._limit = true ∧
    (dictLookup dfC1w.buildQuery "size" =
      some (Json.int (if optDictTruthy dfC1w._aggregation then 0
        else dfC1w._limit.getD 20)) ∧
    ("aggregations" ∈ dictKeys dfC1w.buildQuery ↔
        optDictTruthy dfC1w._aggregation = true) ∧
    ("query" ∈ dictKeys dfC1w.buildQuery ↔ dfC1w._filter.isSome = true) ∧
    ("_source" ∈ dictKeys dfC1w.buildQuery ↔ dfC1w._projection.isSome = true) ∧
    ("sort" ∈ dictKeys dfC1w.buildQuery ↔ optListTruthy dfC1w._sort = true) ∧
    (∀ k ∈ dictKeys dfC1w.buildQuery,
       k ∈ ["size", "aggregations", "query", "_source", "sort"])) :=
  ⟨rfl, rfl, rfl, buildQuery_emits_keys_by_truthiness dfC1w rfl rfl rfl⟩

/-- C2: `filter` replaces the previous filter clause outright, so chaining
two filter calls produces exactly the frame (hence exactly the compiled
query document) of the second call alone; no implicit AND is formed. -/
theorem filter_last_write_wins (df df1 : DataFrame)
    (p1 p2 : BooleanFilter) (h1 : df.filter p1 = .ok df1) :
    df1.filter p2 = df.filter p2 ∧
    ∀ df2 df2', df1.filter p2 = .ok df2 → df.filter p2 = .ok df2' →
      df2.buildQuery = df2'.buildQuery := by
  obtain ⟨hm, -, ha, hs, hp, hl, -⟩ := init_ok_fields _ _ _ h1
  have heq : df1.filter p2 = df.filter p2 := by
    unfold DataFrame.filter
    rw [hm, ha, hs, hp, hl]
  refine ⟨heq, ?_⟩
  intro df2 df2' h2 h2'
  rw [heq, h2'] at h2
  cases h2
  rfl

/-- C2, witness: evaluated on the fixture frame with two concrete
predicates. -/
theorem filter_last_write_wins_witness :
    (dfFix.filter (.lt "age" (Json.int 13)) = .ok dfC2a) ∧
    (dfC2a.filter (.eq "age" (Json.int 5)) =
      dfFix.filter (.eq "age" (Json.int 5)) ∧
     ∀ df2 df2', dfC2a.filter (.eq "age" (Json.int 5)) = .ok df2 →
        dfFix.filter (.eq "age" (Json.int 5)) = .ok df2' →
        df2.buildQuery = df2'.buildQuery) :=
  ⟨rfl, filter_last_write_wins dfFix dfC2a (.lt "age" (Json.int 13))
    (.eq "age" (Json.int 5)) rfl⟩

/-- Reduction of `limit` at an integer argument. -/
theorem limit_int_eq (df : DataFrame) (n : Int) :
    df.limit (.int n) =
      if n ≥ 1 then
        DataFrame.init df._mapping
          { filter := df._filter, aggregation := df._aggregation,
            projection := df._projection, sort := df._sort, limit := some n }
      else .error .assertionError := rfl

/-- Successful construction, given a last index key and a non-empty column
list. -/
theorem init_eq_ok (m : Mapping) (kw : Kwargs) (idx : String)
    (hidx : lastIndex m = some idx)
    (hcols : (colsOfMapping m).isEmpty = false) :
    DataFrame.init m kw = .ok
      { _index := idx, _columns := colsOfMapping m, _mapping := m,
        _filter := kw.filter, _aggregation := kw.aggregation,
        _sort := kw.sort, _projection := kw.projection,
        _limit := kw.limit } := by
  unfold DataFrame.init
  rw [hidx]
  simp [hcols]

/-- C3, counterexample: `agg()` with zero aggregators sets the aggregation
clause (to the empty map), yet the compiled document keeps size 7 and
carries no `aggregations` key — so a frame whose aggregation clause is set
via `agg` does not always compile to size 0. -/
theorem agg_empty_does_not_force_size_zero :
    (dfFix.limit (.int 7) = .ok dfC3base ∧ dfC3base.agg [] = .ok dfC3 ∧
      dfC3._aggregation = some []) ∧
    ¬ (dictLookup dfC3.buildQuery "size" = some (Json.int 0) ∧
       "aggregations" ∈ dictKeys dfC3.buildQuery) := by
  refine ⟨⟨rfl, rfl, rfl⟩, ?_⟩
  intro h
  have h1 := h.1
  rw [show dictLookup dfC3.buildQuery "size" = some (Json.int 7) from rfl] at h1
  simp at h1

/-- C3, amended: `agg` with at least one aggregator yields a frame whose
compiled document always has size 0 and carries the merged aggregation map
under `aggregations`, regardless of any limit set before the call, and a
`limit` call made after `agg` still compiles to size 0. -/
theorem agg_nonempty_forces_size_zero (df df' : DataFrame)
    (aggs : List Aggregator) (h : df.agg aggs = .ok df') (hne : aggs ≠ []) :
    dictLookup df'.buildQuery "size" = some (Json.int 0) ∧
    dictLookup df'.buildQuery "aggregations" =
      some (Json.obj (mergeAggs aggs)) ∧
    ∀ n df'', df'.limit (.int n) = .ok df'' →
      dictLookup df''.buildQuery "size" = some (Json.int 0) := by
  obtain ⟨-, -, ha0, -, -, -, -⟩ := init_ok_fields _ _ _ h
  have ha : df'._aggregation = some (mergeAggs aggs) := ha0
  have htr : optDictTruthy df'._aggregation = true := by
    rw [ha]
    simpa [optDictTruthy] using mergeAggs_ne_nil aggs hne
  refine ⟨?_, ?_, ?_⟩
  · rw [dictLookup_buildQuery_size, htr]
    simp
  · rw [dictLookup_buildQuery_aggregations, htr, ha]
    simp
  · intro n df'' h''
    rw [limit_int_eq] at h''
    split at h''
    · obtain ⟨-, -, ha2, -, -, -, -⟩ := init_ok_fields _ _ _ h''
      have ha3 : df''._aggregation = df'._aggregation := ha2
      have htr2 : optDictTruthy df''._aggregation = true := by
        rw [ha3]
        exact htr
      rw [dictLookup_buildQuery_size, htr2]
      simp
    · simp at h''

/-- C3, witness: evaluated with one concrete aggregator over a frame with
limit 7. -/
theorem agg_nonempty_forces_size_zero_witness :
    (dfC3base.agg [⟨"age", "avg"⟩] = .ok dfC3w) ∧
    ([(⟨"age", "avg"⟩ : Aggregator)] ≠ []) ∧
    (dictLookup dfC3w.buildQuery "size" = some (Json.int 0) ∧
     dictLookup dfC3w.buildQuery "aggregations" =
       some (Json.obj (mergeAggs [⟨"age", "avg"⟩])) ∧
     ∀ n df'', dfC3w.limit (.int n) = .ok df'' →
       dictLookup df''.buildQuery "size" = some (Json.int 0)) :=
  ⟨rfl, by simp,
    agg_nonempty_forces_size_zero dfC3base dfC3w [⟨"age", "avg"⟩] rfl (by simp)⟩

/-- C4, counterexample: `limit(0)` fails via the `assert` statements with
AssertionError, which is not ValueError. -/
theorem limit_zero_raises_assertion_not_value_error :
    dfFix.limit (.int 0) = .error .assertionError ∧
    Err.assertionError ≠ Err.valueError :=
  ⟨rfl, by decide⟩

/-- C4, amended: on a well-formed frame without a non-empty aggregation
clause, `limit(n)` for a positive integer `n` produces a frame compiling to
size `n`; for `n <= 0` or a non-integer argument the call fails — with
AssertionError from the two `assert` statements, not ValueError — and no
new frame is produced. -/
theorem limit_positive_sets_size_else_assertion (df : DataFrame) (n : Int)
    (hwf : df.wf = true) (hagg : optDictTruthy df._aggregation = false) :
    (1 ≤ n → ∃ df', df.limit (.int n) = .ok df' ∧
        dictLookup df'.buildQuery "size" = some (Json.int n)) ∧
    (n < 1 → df.limit (.int n) = .error .assertionError) ∧
    df.limit .nonint = .error .assertionError := by
  refine ⟨?_, ?_, rfl⟩
  · intro hn
    rw [DataFrame.wf, Bool.and_eq_true] at hwf
    obtain ⟨hidx0, hcols0⟩ := hwf
    rw [Option.isSome_iff_exists] at hidx0
    obtain ⟨idx, hidx⟩ := hidx0
    rw [Bool.not_eq_eq_eq_not, Bool.not_true] at hcols0
    have hok := init_eq_ok df._mapping
      { filter := df._filter, aggregation := df._aggregation,
        projection := df._projection, sort := df._sort, limit := some n }
      idx hidx hcols0
    refine ⟨{ _index := idx, _columns := colsOfMapping df._mapping,
              _mapping := df._mapping, _filter := df._filter,
              _aggregation := df._aggregation, _sort := df._sort,
              _projection := df._projection, _limit := some n }, ?_, ?_⟩
    · rw [limit_int_eq, if_pos (by omega : n ≥ 1)]
      exact hok
    · rw [dictLookup_buildQuery_size]
      have hne : (n != 0) = true := by simp; omega
      simp [hagg, optIntTruthy, hne]
  · intro hn
    rw [limit_int_eq, if_neg (by omega)]

/-- C4, witness: evaluated at `n = 3` on the fixture frame. -/
theorem limit_positive_sets_size_else_assertion_witness :
    dfFix.wf = true ∧ optDictTruthy dfFix._aggregation = false ∧
    ((1 ≤ (3 : Int) → ∃ df', dfFix.limit (.int 3) = .ok df' ∧
        dictLookup df'.buildQuery "size" = some (Json.int 3)) ∧
     ((3 : Int) < 1 → dfFix.limit (.int 3) = .error .assertionError) ∧
     dfFix.limit .nonint = .error .assertionError) :=
  ⟨rfl, rfl, limit_positive_sets_size_else_assertion dfFix 3 rfl rfl⟩

/-- C5, counterexample: `sort()` with zero sorters sets the sort clause to
the empty list, and the compiled document then carries no `sort` key at
all, rather than the (empty) list of built fragments the claim
prescribes. -/
theorem sort_empty_call_emits_no_sort_key :
    (dfFix.sort [] = .ok dfC5 ∧ dfC5._sort = some []) ∧
    ¬ (dictLookup dfC5.buildQuery "sort" =
        some (Json.arr (([] : List Sorter).map Sorter.build))) := by
  refine ⟨⟨rfl, rfl⟩, ?_⟩
  intro h
  rw [show dictLookup dfC5.buildQuery "sort" = none from rfl] at h
  simp at h

/-- C5, amended: for a non-empty sequence of sorters passed to one `sort`
call, the compiled `sort` clause is exactly the list of each sorter's built
fragment in call order (no reordering, no de-duplication); for the empty
sequence the compiled document has no `sort` key. -/
theorem sort_clause_preserves_call_order (df df' : DataFrame)
    (sorters : List Sorter) (h : df.sort sorters = .ok df') :
    (sorters ≠ [] → dictLookup df'.buildQuery "sort" =
        some (Json.arr (sorters.map Sorter.build))) ∧
    (sorters = [] → dictLookup df'.buildQuery "sort" = none) := by
  obtain ⟨-, -, -, hs0, -, -, -⟩ := init_ok_fields _ _ _ h
  have hs : df'._sort = some (sorters.map Sorter.build) := hs0
  constructor
  · intro hne
    rw [dictLookup_buildQuery_sort, hs]
    cases sorters with
    | nil => exact absurd rfl hne
    | cons a t => simp [optListTruthy]
  · intro heq
    subst heq
    rw [dictLookup_buildQuery_sort, hs]
    simp [optListTruthy]

/-- C5, witness: the two-sorter example from the claim, evaluated. -/
theorem sort_clause_preserves_call_order_witness :
    (dfFix.sort [⟨"A", true⟩, ⟨"B", false⟩] = .ok dfC5w) ∧
    ((([⟨"A", true⟩, ⟨"B", false⟩] : List Sorter) ≠ [] →
        dictLookup dfC5w.buildQuery "sort" =
          some (Json.arr (([⟨"A", true⟩, ⟨"B", false⟩] : List Sorter).map
            Sorter.build))) ∧
     (([⟨"A", true⟩, ⟨"B", false⟩] : List Sorter) = [] →
        dictLookup dfC5w.buildQuery "sort" = none)) ∧
    dictLookup dfC5w.buildQuery "sort" =
      some (Json.arr [Json.obj [("A", Json.obj [("order", Json.str "asc")])],
                      Json.obj [("B", Json.obj [("order", Json.str "desc")])]]) :=
  ⟨rfl, sort_clause_preserves_call_order dfFix dfC5w _ rfl, rfl⟩

/-- C6: the interpreter choice of `_execute` does not depend on the
response value at all, and equals the aggregation variant exactly when the
aggregation clause is present (`is not None`), the hit-listing variant
exactly when it is absent. -/
theorem execute_dispatch_ignores_response (df : DataFrame) (r1 r2 : Json) :
    df.interpFor r1 = df.interpFor r2 ∧
    (df.interpFor r1 = .agg ↔ df._aggregation.isSome = true) ∧
    (df.interpFor r1 = .select ↔ df._aggregation = none) := by
  cases h : df._aggregation <;> simp [DataFrame.interpFor, h]

theorem except_map_ok {α β : Type} (f : α → β) (x : Except Err α) (b : β)
    (h : x.map f = .ok b) : ∃ a, x = .ok a ∧ b = f a := by
  cases x with
  | error e => simp [Except.map] at h
  | ok a => exact ⟨a, rfl, by simpa [Except.map] using h.symm⟩

/-- C7: every successful clause-mutator call other than indexing with a
BooleanFilter leaves the receiver unchanged and returns a fresh frame;
indexing with a BooleanFilter mutates the receiver's filter clause,
returns the receiver itself, and the returned frame compiles to the same
query document as `df.filter(predicate)`. -/
theorem mutators_return_fresh_except_getitem_filter (df : DataFrame)
    (c : MCall) (out : StepOut) (h : df.step c = .ok out) :
    (c.isGetItem = false → out.receiverAfter = df ∧ out.retIsSelf = false) ∧
    (∀ p, c = .mgetitemFilter p →
        out.retIsSelf = true ∧ out.ret = out.receiverAfter ∧
        out.ret._filter = some p.build ∧
        ∀ df2, df.filter p = .ok df2 →
          out.ret.buildQuery = df2.buildQuery) := by
  cases c with
  | mfilter p =>
      obtain ⟨r, -, hout⟩ := except_map_ok _ _ _ h
      subst hout
      exact ⟨fun _ => ⟨rfl, rfl⟩, fun p' hc => absurd hc (by simp)⟩
  | mselect cs =>
      obtain ⟨r, -, hout⟩ := except_map_ok _ _ _ h
      subst hout
      exact ⟨fun _ => ⟨rfl, rfl⟩, fun p' hc => absurd hc (by simp)⟩
  | mlimit n =>
      obtain ⟨r, -, hout⟩ := except_map_ok _ _ _ h
      subst hout
      exact ⟨fun _ => ⟨rfl, rfl⟩, fun p' hc => absurd hc (by simp)⟩
  | magg aggs =>
      obtain ⟨r, -, hout⟩ := except_map_ok _ _ _ h
      subst hout
      exact ⟨fun _ => ⟨rfl, rfl⟩, fun p' hc => absurd hc (by simp)⟩
  | msort ss =>
      obtain ⟨r, -, hout⟩ := except_map_ok _ _ _ h
      subst hout
      exact ⟨fun _ => ⟨rfl, rfl⟩, fun p' hc => absurd hc (by simp)⟩
  | mgetitemFilter p =>
      have h' : (df.getitem (.filt p)).map
          (fun r => (⟨r.1, r.1, r.2.isSelf⟩ : StepOut)) = .ok out := h
      obtain ⟨r, hr, hout⟩ := except_map_ok _ _ _ h'
      rw [show df.getitem (.filt p) =
        Except.ok ({ df with _filter := some p.build }, GetItemRet.self)
        from rfl] at hr
      injection hr with hr2
      subst hr2
      subst hout
      refine ⟨fun hfalse => by simp [MCall.isGetItem] at hfalse, ?_⟩
      intro p' hc
      injection hc with hp
      subst hp
      refine ⟨rfl, rfl, rfl, ?_⟩
      intro df2 h2
      obtain ⟨-, hfil0, ha0, hs0, hp0, hl0, -⟩ := init_ok_fields _ _ _ h2
      have h1 : df2._filter = some p.build := hfil0
      have h2a : df2._aggregation = df._aggregation := ha0
      have h3 : df2._sort = df._sort := hs0
      have h4 : df2._projection = df._projection := hp0
      have h5 : df2._limit = df._limit := hl0
      exact buildQuery_congr _ _ h1.symm h2a.symm h3.symm h4.symm h5.symm

/-- C7, witness: the indexing-with-a-BooleanFilter call evaluated on the
fixture frame. -/
theorem mutators_return_fresh_except_getitem_filter_witness :
    (dfFix.step (.mgetitemFilter (.eq "age" (Json.int 5))) = .ok outC7) ∧
    (((MCall.mgetitemFilter (.eq "age" (Json.int 5))).isGetItem = false →
        outC7.receiverAfter = dfFix ∧ outC7.retIsSelf = false) ∧
     (∀ p, MCall.mgetitemFilter (.eq "age" (Json.int 5)) =
          .mgetitemFilter p →
        outC7.retIsSelf = true ∧ outC7.ret = outC7.receiverAfter ∧
        outC7.ret._filter = some p.build ∧
        ∀ df2, dfFix.filter p = .ok df2 →
          outC7.ret.buildQuery = df2.buildQuery)) :=
  ⟨rfl, mutators_return_fresh_except_getitem_filter dfFix
    (.mgetitemFilter (.eq "age" (Json.int 5))) outC7 rfl⟩

/-- C8: attribute access and string indexing validate the name against the
column set — AttributeError / TypeError (the spec's TypeMismatch) on a
missing name, a bound `Column` on a present one — and indexing with a
value that is neither a string nor a BooleanFilter fails with TypeError. -/
theorem column_access_validates_schema (df : DataFrame) (name : String) :
    (df._columns.contains name = false →
        df.getattr name = .error .attributeError ∧
        df.getitem (.str name) = .error .typeError) ∧
    (df._columns.contains name = true →
        df.getattr name = .ok ⟨name⟩ ∧
        df.getitem (.str name) = .ok (df, .col ⟨name⟩)) ∧
    df.getitem .other = .error .typeError := by
  refine ⟨?_, ?_, rfl⟩
  · intro h
    have h' : name ∉ df._columns := by simpa using h
    simp [DataFrame.getattr, DataFrame.getitem, h']
  · intro h
    have h' : name ∈ df._columns := by simpa using h
    simp [DataFrame.getattr, DataFrame.getitem, h']

/-- C8, witness: evaluated on the fixture frame with a present and an
absent column name. -/
theorem column_access_validates_schema_witness :
    (dfFix._columns.contains "age" = true) ∧
    (dfFix.getattr "age" = .ok ⟨"age"⟩ ∧
      dfFix.getitem (.str "age") = .ok (dfFix, .col ⟨"age"⟩)) ∧
    (dfFix._columns.contains "salary" = false) ∧
    (dfFix.getattr "salary" = .error .attributeError ∧
      dfFix.getitem (.str "salary") = .error .typeError) ∧
    dfFix.getitem .other = .error .typeError :=
  ⟨rfl, (column_access_validates_schema dfFix "age").2.1 rfl, rfl,
   (column_access_validates_schema dfFix "salary").1 rfl,
   (column_access_validates_schema dfFix "salary").2.2⟩

/-- C9: construction over the empty mapping ends in the unbounded
`__getattr__` recursion (RecursionError) instead of the intended schema
error; zero collected fields raise the `'0 columns found'` Exception; and
a well-shaped mapping constructs a frame whose column set is the field
names. -/
theorem init_empty_mapping_recursion_behavior :
    DataFrame.init ([] : Mapping) {} = .error .recursionError ∧
    DataFrame.init mapC9zero {} = .error .schemaException ∧
    (∃ df, DataFrame.init mapC9two {} = .ok df ∧
      df._columns = ["age", "name"]) :=
  ⟨rfl, rfl, ⟨_, rfl, rfl⟩⟩

/-- C10: after `agg()` with zero aggregators the aggregation clause is the
empty map, the compiled document has no `aggregations` key and keeps the
limit-or-default size, yet `_execute` dispatches to the aggregation
interpreter — the compiler's truthiness test and the dispatcher's
`is not None` test disagree on this input. -/
theorem agg_empty_compiler_dispatch_disagree (df df' : DataFrame)
    (r : Json) (h : df.agg [] = .ok df') :
    df'._aggregation = some [] ∧
    dictLookup df'.buildQuery "aggregations" = none ∧
    dictLookup df'.buildQuery "size" =
      some (Json.int (if optIntTruthy df._limit then df._limit.getD 0
        else 20)) ∧
    df'.interpFor r = .agg := by
  obtain ⟨-, -, ha0, -, -, hl0, -⟩ := init_ok_fields _ _ _ h
  have ha : df'._aggregation = some (mergeAggs []) := ha0
  rw [mergeAggs_nil] at ha
  have hl : df'._limit = df._limit := hl0
  have htr : optDictTruthy df'._aggregation = false := by rw [ha]; rfl
  refine ⟨ha, ?_, ?_, ?_⟩
  · rw [dictLookup_buildQuery_aggregations, htr]
    simp
  · rw [dictLookup_buildQuery_size, htr, hl]
    simp
  · simp [DataFrame.interpFor, ha]

/-- C10, witness: evaluated on the fixture frame. -/
theorem agg_empty_compiler_dispatch_disagree_witness :
    (dfFix.agg [] = .ok dfC10) ∧
    (dfC10._aggregation = some [] ∧
     dictLookup dfC10.buildQuery "aggregations" = none ∧
     dictLookup dfC10.buildQuery "size" =
       some (Json.int (if optIntTruthy dfFix._limit then dfFix._limit.getD 0
         else 20)) ∧
     dfC10.interpFor Json.null = .agg) :=
  ⟨rfl, agg_empty_compiler_dispatch_disagree dfFix dfC10 Json.null rfl⟩

